import Mathlib

/-!
Shallow embedding of `absplots.py` (matplotlib subplots with absolute
margins in mm or inches) and verification of its specification.

Real numbers of the Python code are modelled by `ℚ` (all the arithmetic the
code performs is field arithmetic with the exact constant 25.4); division in
`ℚ` is total, the claims that depend on nonzero denominators carry the
corresponding hypotheses.  The mutable gridspec keyword dictionary is
modelled by the structure `GridspecKw` with one optional field per
recognised key (`none` = key absent); the in-place mutation of the
dictionary is modelled twice: by explicit state passing inside
`processKwInchesAux`, and, for the aliasing claim, by a reference/store
embedding (`Store`, `processKwInchesRef`).
-/

namespace Absplots

/-- The gridspec keyword dictionary: each recognised key is an optional
field, `none` meaning the key is absent from the dictionary.
`widthRatios`/`heightRatios` stand for the `width_ratios`/`height_ratios`
keys, which the code never reads nor writes. -/
structure GridspecKw where
  left : Option ℚ := none
  right : Option ℚ := none
  bottom : Option ℚ := none
  top : Option ℚ := none
  wspace : Option ℚ := none
  hspace : Option ℚ := none
  widthRatios : Option (List ℚ) := none
  heightRatios : Option (List ℚ) := none
  deriving DecidableEq, Repr

/-- The figure's default subplot parameters (`self.subplotpars`),
fractional units. -/
structure SubplotPars where
  left : ℚ
  right : ℚ
  bottom : ℚ
  top : ℚ
  deriving DecidableEq, Repr

/-- The state of an `AbsFigure` relevant to the conversions: its size in
inches (`self.get_size_inches()` returns `(figw, figh)`) and its default
subplot parameters. -/
structure AbsFigure where
  figw : ℚ
  figh : ℚ
  subplotpars : SubplotPars
  deriving DecidableEq, Repr

/-- Body of `AbsFigure._process_kw_inches` after the `None` test: the
sequence of in-place updates the method performs on the dictionary,
modelled by explicit state passing (`kw1` … `kw6` are the successive
states of the one mutated dictionary).  `Option.map` renders the
`if key in gridspec_kw` guards, `Option.getD` renders `dict.get(key,
default)`, and `x⁻¹` renders `x**(-1)`. -/
def processKwInchesAux (fig : AbsFigure) (nrows ncols : ℕ)
    (gridspec_kw : GridspecKw) : GridspecKw :=
  let figw := fig.figw
  let figh := fig.figh
  -- convert outer margins to ratios
  let kw1 := { gridspec_kw with left := gridspec_kw.left.map (fun v => v / figw) }
  let kw2 := { kw1 with right := kw1.right.map (fun v => 1 - v / figw) }
  let kw3 := { kw2 with bottom := kw2.bottom.map (fun v => v / figh) }
  let kw4 := { kw3 with top := kw3.top.map (fun v => 1 - v / figh) }
  -- normalize inner spacing to axes dimensions.  Each step only assigns
  -- the `wspace` (resp. `hspace`) entry, so it is rendered as the new
  -- value of that one entry: absent stays absent, zero stays untouched.
  let ws5 : Option ℚ :=
    match kw4.wspace with
    | some w =>
      if w ≠ 0 then
        let l := kw4.left.getD fig.subplotpars.left
        let r := kw4.right.getD fig.subplotpars.right
        some ((figw * (r - l) / w + 1) / (ncols : ℚ) - 1)⁻¹
      else some w
    | none => none
  let kw5 := { kw4 with wspace := ws5 }
  let hs6 : Option ℚ :=
    match kw5.hspace with
    | some h =>
      if h ≠ 0 then
        let b := kw5.bottom.getD fig.subplotpars.bottom
        let t := kw5.top.getD fig.subplotpars.top
        some ((figh * (t - b) / h + 1) / (nrows : ℚ) - 1)⁻¹
      else some h
    | none => none
  let kw6 := { kw5 with hspace := hs6 }
  kw6

/-- `AbsFigure._process_kw_inches`: if `None` is provided, return `None`,
otherwise mutate and return the dictionary. -/
def processKwInches (fig : AbsFigure) (nrows ncols : ℕ)
    (gridspec_kw : Option GridspecKw) : Option GridspecKw :=
  match gridspec_kw with
  | none => none
  | some kw => some (processKwInchesAux fig nrows ncols kw)

/-- The `for dim in [...]` loop of `AbsFigure._process_kw_mm`: multiply
every present value among the six dimension keys by `mm = 1/25.4`. -/
def mmScaleKw (kw : GridspecKw) : GridspecKw :=
  let mm : ℚ := 1 / 25.4
  { kw with
    left := kw.left.map (fun v => v * mm)
    right := kw.right.map (fun v => v * mm)
    bottom := kw.bottom.map (fun v => v * mm)
    top := kw.top.map (fun v => v * mm)
    wspace := kw.wspace.map (fun v => v * mm)
    hspace := kw.hspace.map (fun v => v * mm) }

/-- `AbsFigure._process_kw_mm`: scale the non-null arguments to inches,
then convert from inches to relative. -/
def processKwMm (fig : AbsFigure) (nrows ncols : ℕ)
    (gridspec_kw : Option GridspecKw) : Option GridspecKw :=
  let scaled :=
    match gridspec_kw with
    | none => none
    | some kw => some (mmScaleKw kw)
  processKwInches fig nrows ncols scaled

/-- The gridspec keywords that `AbsFigure.subplots_inches` forwards to
`matplotlib.figure.Figure.subplots`: the converted dictionary. -/
def subplotsInchesGskw (fig : AbsFigure) (nrows ncols : ℕ)
    (gridspec_kw : Option GridspecKw) : Option GridspecKw :=
  processKwInches fig nrows ncols gridspec_kw

/-- The gridspec keywords that `AbsFigure.subplots_mm` forwards to
`matplotlib.figure.Figure.subplots`: the converted dictionary. -/
def subplotsMmGskw (fig : AbsFigure) (nrows ncols : ℕ)
    (gridspec_kw : Option GridspecKw) : Option GridspecKw :=
  processKwMm fig nrows ncols gridspec_kw

/-- An axes rectangle `[left, bottom, width, height]` (the four-element
list the Python code indexes as `rect[0] … rect[3]`). -/
structure Rect where
  l : ℚ
  b : ℚ
  w : ℚ
  h : ℚ
  deriving DecidableEq, Repr

/-- Apply `f` to each of the four entries (`[f x for x in rect]`). -/
def Rect.map (f : ℚ → ℚ) (r : Rect) : Rect :=
  ⟨f r.l, f r.b, f r.w, f r.h⟩

/-- `AbsFigure.add_axes_inches`: the fractional rectangle this method
passes on to `matplotlib.figure.Figure.add_axes`. -/
def addAxesInches (fig : AbsFigure) (rect : Rect) : Rect :=
  ⟨rect.l / fig.figw, rect.b / fig.figh, rect.w / fig.figw, rect.h / fig.figh⟩

/-- `AbsFigure.add_axes_mm`: `[x/25.4 for x in rect]`, then delegate to
`add_axes_inches`. -/
def addAxesMm (fig : AbsFigure) (rect : Rect) : Rect :=
  addAxesInches fig (rect.map (fun x => x / 25.4))

/-- A fractional bounding box as reported by `Axes.get_position()`. -/
structure Bbox where
  x0 : ℚ
  y0 : ℚ
  x1 : ℚ
  y1 : ℚ
  deriving DecidableEq, Repr

/-- The external collaborator's convention (spec section 4.1, items 4-5):
an axes created at fractional rectangle `[l, b, w, h]` has the position
bounding box with corners `(l, b)` and `(l + w, b + h)`. -/
def Bbox.fromBounds (r : Rect) : Bbox :=
  ⟨r.l, r.b, r.l + r.w, r.b + r.h⟩

/-- `AbsFigure.get_position_inches` applied to an axes whose (fractional)
position bounding box is `pos`. -/
def getPositionInches (fig : AbsFigure) (pos : Bbox) : Rect :=
  ⟨pos.x0 * fig.figw, pos.y0 * fig.figh,
   (pos.x1 - pos.x0) * fig.figw, (pos.y1 - pos.y0) * fig.figh⟩

/-- `figure`: the external library sizes the new figure to `figsize` when
one is given and to its configured default size otherwise; the new
figure carries the library's default subplot parameters. -/
def figure (defaultSize : ℚ × ℚ) (pars : SubplotPars)
    (figsize : Option (ℚ × ℚ)) : AbsFigure :=
  match figsize with
  | some wh => ⟨wh.1, wh.2, pars⟩
  | none => ⟨defaultSize.1, defaultSize.2, pars⟩

/-- `figure_mm`: scale a given `figsize` by `mm = 1/25.4`, then call
`figure`. -/
def figure_mm (defaultSize : ℚ × ℚ) (pars : SubplotPars)
    (figsize : Option (ℚ × ℚ)) : AbsFigure :=
  let mm : ℚ := 1 / 25.4
  let scaled : Option (ℚ × ℚ) :=
    match figsize with
    | some wh => some (wh.1 * mm, wh.2 * mm)
    | none => none
  figure defaultSize pars scaled

/-- Specification-side scaling for the refinement claim, following the
spec's words: the mapping with `left, right, bottom, top, wspace, hspace`
each divided by 25.4. -/
def specDivKw (kw : GridspecKw) : GridspecKw :=
  { kw with
    left := kw.left.map (fun v => v / 25.4)
    right := kw.right.map (fun v => v / 25.4)
    bottom := kw.bottom.map (fun v => v / 25.4)
    top := kw.top.map (fun v => v / 25.4)
    wspace := kw.wspace.map (fun v => v / 25.4)
    hspace := kw.hspace.map (fun v => v / 25.4) }

/-- References to dictionary objects, for the in-place mutation claim. -/
abbrev Ref := ℕ

/-- A heap of gridspec keyword dictionaries. -/
abbrev Store := Ref → Option GridspecKw

/-- `AbsFigure._process_kw_inches` at the level of object references: the
caller passes (a reference to) its dictionary, the method performs its
item assignments on that very dictionary and then returns it, so the
store is updated at the given reference and the same reference is
returned. -/
def processKwInchesRef (fig : AbsFigure) (nrows ncols : ℕ) (σ : Store)
    (gridspec_kw : Option Ref) : Store × Option Ref :=
  match gridspec_kw with
  | none => (σ, none)
  | some ref =>
    match σ ref with
    | none => (σ, some ref)
    | some kw =>
      (Function.update σ ref (some (processKwInchesAux fig nrows ncols kw)),
       some ref)

/-- `AbsFigure._process_kw_mm` at the level of object references: the
`*= mm` loop mutates the caller's dictionary, then the inches conversion
continues on the same dictionary. -/
def processKwMmRef (fig : AbsFigure) (nrows ncols : ℕ) (σ : Store)
    (gridspec_kw : Option Ref) : Store × Option Ref :=
  match gridspec_kw with
  | none => processKwInchesRef fig nrows ncols σ none
  | some ref =>
    match σ ref with
    | none => processKwInchesRef fig nrows ncols σ (some ref)
    | some kw =>
      processKwInchesRef fig nrows ncols
        (Function.update σ ref (some (mmScaleKw kw))) (some ref)

/-- The keyword names that `subplots_inches`/`subplots_mm` route to the
subplot-creation call (`spl_keys` in the source). -/
def spl_keys : List String :=
  ["sharex", "sharey", "squeeze", "subplot_kw", "gridspec_kw"]

/-- The keyword segregation performed by the module-level
`subplots_inches`: the pair `(spl_kw, fig_kw)` of subplot keywords and
figure keywords. -/
def subplotsInchesSplitKw {α : Type} (kwargs : List (String × α)) :
    List (String × α) × List (String × α) :=
  (kwargs.filter (fun p => spl_keys.contains p.1),
   kwargs.filter (fun p => !(spl_keys.contains p.1)))

/-- The keyword segregation performed by the module-level `subplots_mm`
(textually identical to the one in `subplots_inches`). -/
def subplotsMmSplitKw {α : Type} (kwargs : List (String × α)) :
    List (String × α) × List (String × α) :=
  (kwargs.filter (fun p => spl_keys.contains p.1),
   kwargs.filter (fun p => !(spl_keys.contains p.1)))

/-- A sample figure used to instantiate the hypotheses of the claims:
6 by 4 inches, matplotlib-like default subplot parameters. -/
def fig0 : AbsFigure :=
  ⟨6, 4, ⟨1/8, 9/10, 11/100, 22/25⟩⟩

/-- A sample gridspec mapping with all six dimension keys present, used to
instantiate the hypotheses of the claims. -/
def kwB : GridspecKw :=
  { left := some 1, right := some 1, bottom := some (1/2), top := some (1/2),
    wspace := some (1/4), hspace := some (1/5) }

/-! Field-level description of `processKwInchesAux`. -/

theorem aux_left (fig : AbsFigure) (nrows ncols : ℕ) (kw : GridspecKw) :
    (processKwInchesAux fig nrows ncols kw).left =
      kw.left.map (fun v => v / fig.figw) := by
  rfl

theorem aux_right (fig : AbsFigure) (nrows ncols : ℕ) (kw : GridspecKw) :
    (processKwInchesAux fig nrows ncols kw).right =
      kw.right.map (fun v => 1 - v / fig.figw) := by
  rfl

theorem aux_bottom (fig : AbsFigure) (nrows ncols : ℕ) (kw : GridspecKw) :
    (processKwInchesAux fig nrows ncols kw).bottom =
      kw.bottom.map (fun v => v / fig.figh) := by
  rfl

theorem aux_top (fig : AbsFigure) (nrows ncols : ℕ) (kw : GridspecKw) :
    (processKwInchesAux fig nrows ncols kw).top =
      kw.top.map (fun v => 1 - v / fig.figh) := by
  rfl

theorem aux_widthRatios (fig : AbsFigure) (nrows ncols : ℕ) (kw : GridspecKw) :
    (processKwInchesAux fig nrows ncols kw).widthRatios = kw.widthRatios := by
  rfl

theorem aux_heightRatios (fig : AbsFigure) (nrows ncols : ℕ) (kw : GridspecKw) :
    (processKwInchesAux fig nrows ncols kw).heightRatios = kw.heightRatios := by
  rfl

/-- The wspace step reads the already-converted `left`/`right` entries,
falling back to the figure's default subplot parameters. -/
theorem aux_wspace (fig : AbsFigure) (nrows ncols : ℕ) (kw : GridspecKw) :
    (processKwInchesAux fig nrows ncols kw).wspace =
      match kw.wspace with
      | none => none
      | some w =>
        if w ≠ 0 then
          some ((fig.figw *
              ((kw.right.map (fun v => 1 - v / fig.figw)).getD fig.subplotpars.right -
               (kw.left.map (fun v => v / fig.figw)).getD fig.subplotpars.left) / w + 1) /
            (ncols : ℚ) - 1)⁻¹
        else some w := by
  obtain ⟨l, r, b, t, ws, hs, wr, hr⟩ := kw
  cases ws <;> rfl

/-- The hspace step reads the already-converted `bottom`/`top` entries,
falling back to the figure's default subplot parameters. -/
theorem aux_hspace (fig : AbsFigure) (nrows ncols : ℕ) (kw : GridspecKw) :
    (processKwInchesAux fig nrows ncols kw).hspace =
      match kw.hspace with
      | none => none
      | some h =>
        if h ≠ 0 then
          some ((fig.figh *
              ((kw.top.map (fun v => 1 - v / fig.figh)).getD fig.subplotpars.top -
               (kw.bottom.map (fun v => v / fig.figh)).getD fig.subplotpars.bottom) / h + 1) /
            (nrows : ℚ) - 1)⁻¹
        else some h := by
  obtain ⟨l, r, b, t, ws, hs, wr, hr⟩ := kw
  cases hs <;> rfl

/-- Multiplying by `mm = 1/25.4` (as the code does) is dividing by 25.4
(as the spec says). -/
theorem mmScaleKw_eq_specDivKw (kw : GridspecKw) :
    mmScaleKw kw = specDivKw kw := by
  have hf : (fun v : ℚ => v * (1 / 25.4)) = fun v : ℚ => v / 25.4 := by
    funext v
    rw [mul_one_div]
  simp only [mmScaleKw, specDivKw, hf]

/-! Claims. -/

/-- Claim C1: for every figure with positive width `W` and height `H` in inches
and every gridspec mapping, the margin conversion replaces each present
key by `left/W`, `1 - right/W`, `bottom/H`, `1 - top/H` respectively, and
gives no value to an absent key. -/
theorem margin_conversion_frac (fig : AbsFigure) (nrows ncols : ℕ)
    (kw : GridspecKw) (hW : 0 < fig.figw) (hH : 0 < fig.figh) :
    ∃ kw', processKwInches fig nrows ncols (some kw) = some kw' ∧
      kw'.left = kw.left.map (fun v => v / fig.figw) ∧
      kw'.right = kw.right.map (fun v => 1 - v / fig.figw) ∧
      kw'.bottom = kw.bottom.map (fun v => v / fig.figh) ∧
      kw'.top = kw.top.map (fun v => 1 - v / fig.figh) :=
  ⟨processKwInchesAux fig nrows ncols kw, rfl,
   aux_left fig nrows ncols kw, aux_right fig nrows ncols kw,
   aux_bottom fig nrows ncols kw, aux_top fig nrows ncols kw⟩

/-- Witness for C1 at a concrete figure and mapping. -/
theorem margin_conversion_frac_witness :
    0 < fig0.figw ∧ 0 < fig0.figh ∧
    (∃ kw', processKwInches fig0 2 3
        (some { left := some 1, top := some (1/2) }) = some kw' ∧
      kw'.left = (some (1 : ℚ)).map (fun v => v / fig0.figw) ∧
      kw'.right = (none : Option ℚ).map (fun v => 1 - v / fig0.figw) ∧
      kw'.bottom = (none : Option ℚ).map (fun v => v / fig0.figh) ∧
      kw'.top = (some (1/2 : ℚ)).map (fun v => 1 - v / fig0.figh)) :=
  ⟨by decide, by decide,
   margin_conversion_frac fig0 2 3 { left := some 1, top := some (1/2) }
     (by decide) (by decide)⟩

/-- Claim C2: with margins present and a nonzero requested spacing, the spacing
conversion produces `r = (((W * Δ) / wspace_abs + 1) / ncols - 1)⁻¹` with
`Δ = right_frac - left_frac` the converted fractional horizontal span, and
the analogous formula for `hspace` with `H`, `nrows` and the vertical
span. -/
theorem spacing_formula (fig : AbsFigure) (nrows ncols : ℕ)
    (kw : GridspecKw) (l r b t ws hs : ℚ)
    (hl : kw.left = some l) (hr : kw.right = some r)
    (hb : kw.bottom = some b) (ht : kw.top = some t)
    (hws : kw.wspace = some ws) (hhs : kw.hspace = some hs)
    (hws0 : ws ≠ 0) (hhs0 : hs ≠ 0) (hnc : 1 ≤ ncols) (hnr : 1 ≤ nrows) :
    ∃ kw', processKwInches fig nrows ncols (some kw) = some kw' ∧
      kw'.wspace =
        some ((fig.figw * ((1 - r / fig.figw) - l / fig.figw) / ws + 1) /
          (ncols : ℚ) - 1)⁻¹ ∧
      kw'.hspace =
        some ((fig.figh * ((1 - t / fig.figh) - b / fig.figh) / hs + 1) /
          (nrows : ℚ) - 1)⁻¹ := by
  refine ⟨processKwInchesAux fig nrows ncols kw, rfl, ?_, ?_⟩
  · rw [aux_wspace, hws, hl, hr]
    simp [hws0]
  · rw [aux_hspace, hhs, hb, ht]
    simp [hhs0]

/-- Witness for C2 at a concrete figure and mapping. -/
theorem spacing_formula_witness :
    ∃ kw', processKwInches fig0 2 3
        (some { left := some 1, right := some 1, bottom := some (1/2),
                top := some (1/2), wspace := some (1/4),
                hspace := some (1/5) }) = some kw' ∧
      kw'.wspace =
        some ((fig0.figw * ((1 - 1 / fig0.figw) - 1 / fig0.figw) / (1/4) + 1) /
          ((3 : ℕ) : ℚ) - 1)⁻¹ ∧
      kw'.hspace =
        some ((fig0.figh * ((1 - (1/2) / fig0.figh) - (1/2) / fig0.figh) / (1/5) + 1) /
          ((2 : ℕ) : ℚ) - 1)⁻¹ :=
  spacing_formula fig0 2 3
    { left := some 1, right := some 1, bottom := some (1/2),
      top := some (1/2), wspace := some (1/4), hspace := some (1/5) }
    1 1 (1/2) (1/2) (1/4) (1/5) rfl rfl rfl rfl rfl rfl
    (by norm_num) (by norm_num) (by decide) (by decide)

/-- Claim C3: a requested spacing of exactly `0` passes through as exactly `0`:
the guard `gridspec_kw['wspace'] != 0.0` (resp. `hspace`) skips the
formula, so no division by the zero spacing is performed. -/
theorem spacing_zero_passthrough (fig : AbsFigure) (nrows ncols : ℕ)
    (kw : GridspecKw) :
    (kw.wspace = some 0 →
      (processKwInchesAux fig nrows ncols kw).wspace = some 0) ∧
    (kw.hspace = some 0 →
      (processKwInchesAux fig nrows ncols kw).hspace = some 0) := by
  constructor
  · intro hws
    rw [aux_wspace, hws]
    simp
  · intro hhs
    rw [aux_hspace, hhs]
    simp

/-- Witness for C3 at a concrete figure and mapping. -/
theorem spacing_zero_passthrough_witness :
    (processKwInchesAux fig0 3 3
      { wspace := some 0, hspace := some 0 }).wspace = some 0 ∧
    (processKwInchesAux fig0 3 3
      { wspace := some 0, hspace := some 0 }).hspace = some 0 :=
  ⟨(spacing_zero_passthrough fig0 3 3
      { wspace := some 0, hspace := some 0 }).1 rfl,
   (spacing_zero_passthrough fig0 3 3
      { wspace := some 0, hspace := some 0 }).2 rfl⟩

/-- Claim C10: with no gridspec keyword mapping (`None`), both conversions
return `None` unchanged, and the subplot methods forward `None` to the
underlying library. -/
theorem none_passthrough (fig : AbsFigure) (nrows ncols : ℕ) :
    processKwInches fig nrows ncols none = none ∧
    processKwMm fig nrows ncols none = none ∧
    subplotsInchesGskw fig nrows ncols none = none ∧
    subplotsMmGskw fig nrows ncols none = none :=
  ⟨rfl, rfl, rfl, rfl⟩

/-- Claim C4: every millimeter entry point equals the corresponding inches
entry point applied to its input with each length divided by 25.4. -/
theorem mm_refines_inches (fig : AbsFigure) (nrows ncols : ℕ)
    (okw : Option GridspecKw) (rect : Rect) (defaultSize : ℚ × ℚ)
    (pars : SubplotPars) (figsize : Option (ℚ × ℚ)) :
    processKwMm fig nrows ncols okw =
      processKwInches fig nrows ncols (okw.map specDivKw) ∧
    addAxesMm fig rect = addAxesInches fig (rect.map (fun x => x / 25.4)) ∧
    figure_mm defaultSize pars figsize =
      figure defaultSize pars
        (figsize.map (fun wh => (wh.1 / 25.4, wh.2 / 25.4))) := by
  refine ⟨?_, rfl, ?_⟩
  · cases okw with
    | none => rfl
    | some kw => simp [processKwMm, processKwInches, mmScaleKw_eq_specDivKw]
  · cases figsize with
    | none => rfl
    | some wh =>
      show (⟨wh.1 * (1 / 25.4), wh.2 * (1 / 25.4), pars⟩ : AbsFigure) =
        ⟨wh.1 / 25.4, wh.2 / 25.4, pars⟩
      rw [mul_one_div, mul_one_div]

/-- Claim C5: converting an absolute rectangle to fractional units (as
`add_axes_inches` does) and back to absolute units (as
`get_position_inches` does) recovers the rectangle, for any positive
figure size. -/
theorem rect_roundtrip (fig : AbsFigure) (r : Rect)
    (hW : 0 < fig.figw) (hH : 0 < fig.figh) :
    getPositionInches fig (Bbox.fromBounds (addAxesInches fig r)) = r := by
  have hW' : fig.figw ≠ 0 := ne_of_gt hW
  have hH' : fig.figh ≠ 0 := ne_of_gt hH
  obtain ⟨l, b, w, h⟩ := r
  simp only [addAxesInches, Bbox.fromBounds, getPositionInches, Rect.mk.injEq]
  refine ⟨?_, ?_, ?_, ?_⟩ <;> field_simp

/-- Witness for C5 at a concrete figure and rectangle. -/
theorem rect_roundtrip_witness :
    0 < fig0.figw ∧ 0 < fig0.figh ∧
    getPositionInches fig0 (Bbox.fromBounds (addAxesInches fig0 ⟨1, 2, 3, 4⟩)) =
      ⟨1, 2, 3, 4⟩ :=
  ⟨by decide, by decide, rect_roundtrip fig0 ⟨1, 2, 3, 4⟩ (by decide) (by decide)⟩

/-- Claim C6: in a single call that supplies both margins and spacing, the
spacing ratio is computed from the just-converted fractional margins
(variant b); the defaults from `self.subplotpars` are used only when the
margin keys are absent. -/
theorem spacing_uses_converted_margins (fig : AbsFigure) (nrows ncols : ℕ)
    (kw : GridspecKw) (ws hs : ℚ)
    (hws : kw.wspace = some ws) (hws0 : ws ≠ 0)
    (hhs : kw.hspace = some hs) (hhs0 : hs ≠ 0) :
    (∀ l r, kw.left = some l → kw.right = some r →
      (processKwInchesAux fig nrows ncols kw).wspace =
        some ((fig.figw * ((1 - r / fig.figw) - l / fig.figw) / ws + 1) /
          (ncols : ℚ) - 1)⁻¹) ∧
    (kw.left = none → kw.right = none →
      (processKwInchesAux fig nrows ncols kw).wspace =
        some ((fig.figw *
            (fig.subplotpars.right - fig.subplotpars.left) / ws + 1) /
          (ncols : ℚ) - 1)⁻¹) ∧
    (∀ b t, kw.bottom = some b → kw.top = some t →
      (processKwInchesAux fig nrows ncols kw).hspace =
        some ((fig.figh * ((1 - t / fig.figh) - b / fig.figh) / hs + 1) /
          (nrows : ℚ) - 1)⁻¹) ∧
    (kw.bottom = none → kw.top = none →
      (processKwInchesAux fig nrows ncols kw).hspace =
        some ((fig.figh *
            (fig.subplotpars.top - fig.subplotpars.bottom) / hs + 1) /
          (nrows : ℚ) - 1)⁻¹) := by
  refine ⟨?_, ?_, ?_, ?_⟩
  · intro l r hl hr
    rw [aux_wspace, hws, hl, hr]
    simp [hws0]
  · intro hl hr
    rw [aux_wspace, hws, hl, hr]
    simp [hws0]
  · intro b t hb ht
    rw [aux_hspace, hhs, hb, ht]
    simp [hhs0]
  · intro hb ht
    rw [aux_hspace, hhs, hb, ht]
    simp [hhs0]

/-- Claim C7: the conversion only touches keys that are present: absent keys
receive no value, and `width_ratios`/`height_ratios` pass through
unmodified, along both the inches and the millimeters path. -/
theorem conversion_frame (fig : AbsFigure) (nrows ncols : ℕ)
    (kw : GridspecKw) :
    (∃ kw', processKwInches fig nrows ncols (some kw) = some kw' ∧
      kw'.widthRatios = kw.widthRatios ∧
      kw'.heightRatios = kw.heightRatios ∧
      (kw.left = none → kw'.left = none) ∧
      (kw.right = none → kw'.right = none) ∧
      (kw.bottom = none → kw'.bottom = none) ∧
      (kw.top = none → kw'.top = none) ∧
      (kw.wspace = none → kw'.wspace = none) ∧
      (kw.hspace = none → kw'.hspace = none)) ∧
    (∃ kw', processKwMm fig nrows ncols (some kw) = some kw' ∧
      kw'.widthRatios = kw.widthRatios ∧
      kw'.heightRatios = kw.heightRatios ∧
      (kw.left = none → kw'.left = none) ∧
      (kw.right = none → kw'.right = none) ∧
      (kw.bottom = none → kw'.bottom = none) ∧
      (kw.top = none → kw'.top = none) ∧
      (kw.wspace = none → kw'.wspace = none) ∧
      (kw.hspace = none → kw'.hspace = none)) := by
  constructor
  · refine ⟨processKwInchesAux fig nrows ncols kw, rfl,
      aux_widthRatios fig nrows ncols kw, aux_heightRatios fig nrows ncols kw,
      ?_, ?_, ?_, ?_, ?_, ?_⟩
    · intro h; rw [aux_left, h]; rfl
    · intro h; rw [aux_right, h]; rfl
    · intro h; rw [aux_bottom, h]; rfl
    · intro h; rw [aux_top, h]; rfl
    · intro h; rw [aux_wspace, h]
    · intro h; rw [aux_hspace, h]
  · refine ⟨processKwInchesAux fig nrows ncols (mmScaleKw kw), rfl,
      ?_, ?_, ?_, ?_, ?_, ?_, ?_, ?_⟩
    · rw [aux_widthRatios]; rfl
    · rw [aux_heightRatios]; rfl
    · intro h; rw [aux_left]; simp [mmScaleKw, h]
    · intro h; rw [aux_right]; simp [mmScaleKw, h]
    · intro h; rw [aux_bottom]; simp [mmScaleKw, h]
    · intro h; rw [aux_top]; simp [mmScaleKw, h]
    · intro h; rw [aux_wspace]; simp [mmScaleKw, h]
    · intro h; rw [aux_hspace]; simp [mmScaleKw, h]

/-- Witness for C6 at a concrete figure and mapping. -/
theorem spacing_uses_converted_margins_witness :
    (1/4 : ℚ) ≠ 0 ∧ (1/5 : ℚ) ≠ 0 ∧
    (∀ l r, kwB.left = some l → kwB.right = some r →
      (processKwInchesAux fig0 2 3 kwB).wspace =
        some ((fig0.figw * ((1 - r / fig0.figw) - l / fig0.figw) / (1/4) + 1) /
          ((3 : ℕ) : ℚ) - 1)⁻¹) ∧
    (∀ b t, kwB.bottom = some b → kwB.top = some t →
      (processKwInchesAux fig0 2 3 kwB).hspace =
        some ((fig0.figh * ((1 - t / fig0.figh) - b / fig0.figh) / (1/5) + 1) /
          ((2 : ℕ) : ℚ) - 1)⁻¹) := by
  have h := spacing_uses_converted_margins fig0 2 3 kwB (1/4) (1/5)
    rfl (by norm_num) rfl (by norm_num)
  exact ⟨by norm_num, by norm_num, h.1, h.2.2.1⟩

/-- Witness for C7 at a concrete figure and the empty mapping. -/
theorem conversion_frame_witness :
    ∃ kw', processKwInches fig0 2 2 (some {}) = some kw' ∧
      kw'.widthRatios = none ∧ kw'.left = none ∧ kw'.wspace = none := by
  obtain ⟨⟨kw', h1, h2, h3, h4, h5, h6, h7, h8, h9⟩, -⟩ :=
    conversion_frame fig0 2 2 {}
  exact ⟨kw', h1, h2.trans rfl, h4 rfl, h8 rfl⟩

/-- Claim C8: `subplots_inches` and `subplots_mm` partition the combined keyword
mapping into the entries whose key is among
{sharex, sharey, squeeze, subplot_kw, gridspec_kw} (passed to the
subplot-creation call) and all remaining entries (passed to figure
creation): the parts keep the original values, are disjoint, and their
union is the original mapping. -/
theorem subplots_kw_partition {α : Type} (kwargs : List (String × α)) :
    (∀ p, p ∈ (subplotsInchesSplitKw kwargs).1 ↔
      p ∈ kwargs ∧ p.1 ∈ spl_keys) ∧
    (∀ p, p ∈ (subplotsInchesSplitKw kwargs).2 ↔
      p ∈ kwargs ∧ p.1 ∉ spl_keys) ∧
    (∀ p, ¬(p ∈ (subplotsInchesSplitKw kwargs).1 ∧
      p ∈ (subplotsInchesSplitKw kwargs).2)) ∧
    (∀ p, p ∈ kwargs ↔
      (p ∈ (subplotsInchesSplitKw kwargs).1 ∨
       p ∈ (subplotsInchesSplitKw kwargs).2)) ∧
    subplotsMmSplitKw kwargs = subplotsInchesSplitKw kwargs := by
  refine ⟨?_, ?_, ?_, ?_, rfl⟩
  · intro p
    simp [subplotsInchesSplitKw, List.mem_filter]
  · intro p
    simp [subplotsInchesSplitKw, List.mem_filter]
  · intro p
    simp [subplotsInchesSplitKw, List.mem_filter]
    tauto
  · intro p
    simp [subplotsInchesSplitKw, List.mem_filter]
    tauto

/-- Witness for C8 at a concrete keyword mapping. -/
theorem subplots_kw_partition_witness :
    ("sharex", 1) ∈ (subplotsInchesSplitKw
      [("sharex", 1), ("figsize", 2)]).1 ∧
    ("figsize", 2) ∈ (subplotsInchesSplitKw
      [("sharex", 1), ("figsize", 2)]).2 := by
  have h := subplots_kw_partition (α := ℕ) [("sharex", 1), ("figsize", 2)]
  exact ⟨(h.1 ("sharex", 1)).2 ⟨by simp, by simp [spl_keys]⟩,
         (h.2.1 ("figsize", 2)).2 ⟨by simp, by simp [spl_keys]⟩⟩

/-- Claim C9: the conversion mutates the caller's dictionary in place and
returns that same dictionary object: after the call, the store holds the
converted mapping at the caller's reference, and the returned object is
that very reference, for both the inches and the millimeters entry
point. -/
theorem process_kw_inplace (fig : AbsFigure) (nrows ncols : ℕ)
    (σ : Store) (ref : Ref) (kw : GridspecKw) (hσ : σ ref = some kw) :
    (processKwInchesRef fig nrows ncols σ (some ref)).2 = some ref ∧
    (processKwInchesRef fig nrows ncols σ (some ref)).1 ref =
      some (processKwInchesAux fig nrows ncols kw) ∧
    (processKwMmRef fig nrows ncols σ (some ref)).2 = some ref ∧
    (processKwMmRef fig nrows ncols σ (some ref)).1 ref =
      some (processKwInchesAux fig nrows ncols (mmScaleKw kw)) := by
  refine ⟨?_, ?_, ?_, ?_⟩ <;>
    simp [processKwInchesRef, processKwMmRef, hσ, Function.update_same]

/-- Witness for C9 at a concrete store holding a concrete mapping. -/
theorem process_kw_inplace_witness :
    ((fun _ : Ref => some kwB) 0 = some kwB) ∧
    (processKwInchesRef fig0 2 3 (fun _ => some kwB) (some 0)).2 = some 0 ∧
    (processKwInchesRef fig0 2 3 (fun _ => some kwB) (some 0)).1 0 =
      some (processKwInchesAux fig0 2 3 kwB) ∧
    (processKwMmRef fig0 2 3 (fun _ => some kwB) (some 0)).2 = some 0 ∧
    (processKwMmRef fig0 2 3 (fun _ => some kwB) (some 0)).1 0 =
      some (processKwInchesAux fig0 2 3 (mmScaleKw kwB)) :=
  ⟨rfl,
   (process_kw_inplace fig0 2 3 (fun _ => some kwB) 0 kwB rfl).1,
   (process_kw_inplace fig0 2 3 (fun _ => some kwB) 0 kwB rfl).2.1,
   (process_kw_inplace fig0 2 3 (fun _ => some kwB) 0 kwB rfl).2.2.1,
   (process_kw_inplace fig0 2 3 (fun _ => some kwB) 0 kwB rfl).2.2.2⟩

end Absplots
